import Mathlib

/-!
# Verification of the graphiti-ui graph aggregation and service layer

Shallow embedding of the Python backend (`src/services/graphiti_service.py`,
`src/api/graph_api.py`, `src/services/entity_type_service.py`,
`src/services/api_key_service.py`) and proofs about the behaviour of the
graph-data pipeline, rename validation, entity-type updates and API-key
validation.
-/

set_option autoImplicit false

namespace GraphitiUI

/-- A Python value as it occurs in the dict-shaped records the service layer
passes around: `None`, strings, lists and string-keyed dicts.  Dicts are
modelled as association lists (lookup returns the first binding). -/
inductive PyVal where
  | vnone : PyVal
  | vstr (s : String) : PyVal
  | vlist (xs : List PyVal) : PyVal
  | vdict (entries : List (String × PyVal)) : PyVal
  deriving Repr

mutual

/-- Structural equality test on `PyVal` (Python `==` on these values). -/
def PyVal.beq : PyVal → PyVal → Bool
  | .vnone, .vnone => true
  | .vstr a, .vstr b => a == b
  | .vlist xs, .vlist ys => PyVal.beqList xs ys
  | .vdict xs, .vdict ys => PyVal.beqEntries xs ys
  | _, _ => false

def PyVal.beqList : List PyVal → List PyVal → Bool
  | [], [] => true
  | x :: xs, y :: ys => PyVal.beq x y && PyVal.beqList xs ys
  | _, _ => false

def PyVal.beqEntries : List (String × PyVal) → List (String × PyVal) → Bool
  | [], [] => true
  | (k, v) :: xs, (l, w) :: ys => k == l && PyVal.beq v w && PyVal.beqEntries xs ys
  | _, _ => false

end

mutual

theorem PyVal.beq_iff : ∀ a b : PyVal, PyVal.beq a b = true ↔ a = b
  | .vnone, .vnone => by simp [PyVal.beq]
  | .vnone, .vstr _ => by simp [PyVal.beq]
  | .vnone, .vlist _ => by simp [PyVal.beq]
  | .vnone, .vdict _ => by simp [PyVal.beq]
  | .vstr _, .vnone => by simp [PyVal.beq]
  | .vstr a, .vstr b => by simp [PyVal.beq]
  | .vstr _, .vlist _ => by simp [PyVal.beq]
  | .vstr _, .vdict _ => by simp [PyVal.beq]
  | .vlist _, .vnone => by simp [PyVal.beq]
  | .vlist _, .vstr _ => by simp [PyVal.beq]
  | .vlist xs, .vlist ys => by
      simp only [PyVal.beq, PyVal.beqList_iff xs ys, PyVal.vlist.injEq]
  | .vlist _, .vdict _ => by simp [PyVal.beq]
  | .vdict _, .vnone => by simp [PyVal.beq]
  | .vdict _, .vstr _ => by simp [PyVal.beq]
  | .vdict _, .vlist _ => by simp [PyVal.beq]
  | .vdict xs, .vdict ys => by
      simp only [PyVal.beq, PyVal.beqEntries_iff xs ys, PyVal.vdict.injEq]

theorem PyVal.beqList_iff : ∀ xs ys : List PyVal, PyVal.beqList xs ys = true ↔ xs = ys
  | [], [] => by simp [PyVal.beqList]
  | [], _ :: _ => by simp [PyVal.beqList]
  | _ :: _, [] => by simp [PyVal.beqList]
  | x :: xs, y :: ys => by
      simp [PyVal.beqList, PyVal.beq_iff x y, PyVal.beqList_iff xs ys]

theorem PyVal.beqEntries_iff :
    ∀ xs ys : List (String × PyVal), PyVal.beqEntries xs ys = true ↔ xs = ys
  | [], [] => by simp [PyVal.beqEntries]
  | [], _ :: _ => by simp [PyVal.beqEntries]
  | _ :: _, [] => by simp [PyVal.beqEntries]
  | (k, v) :: xs, (l, w) :: ys => by
      simp [PyVal.beqEntries, PyVal.beq_iff v w, PyVal.beqEntries_iff xs ys,
        Prod.ext_iff, and_assoc]

end

instance : DecidableEq PyVal := fun a b => decidable_of_iff _ (PyVal.beq_iff a b)

/-- A Python dict with string keys. -/
abbrev PyDict := List (String × PyVal)

/-- `d.get(k)` — first binding for `k`, if any. -/
def pyGet (d : PyDict) (k : String) : Option PyVal :=
  (d.find? (fun kv => kv.1 = k)).map (fun kv => kv.2)

/-- `d.get(k, default)`. -/
def pyGetD (d : PyDict) (k : String) (dflt : PyVal) : PyVal :=
  (pyGet d k).getD dflt

/-- Python truthiness for the values the code tests (`edge.get("name") or ...`). -/
def pyTruthy : PyVal → Bool
  | .vnone => false
  | .vstr s => s != ""
  | .vlist xs => !xs.isEmpty
  | .vdict es => !es.isEmpty

/-- View a `PyVal` expected to be a dict as a dict (the code only applies
`.items()` to values that are dicts). -/
def PyVal.asDict : PyVal → PyDict
  | .vdict es => es
  | _ => []

/-! ## `GraphitiClient` transforms (`src/services/graphiti_service.py`) -/

/-- The `standard_props` set of `_transform_nodes`: property keys excluded
from the `attributes` map. -/
def standardProps : List String :=
  ["uuid", "name", "summary", "group_id", "created_at",
   "name_embedding", "summary_embedding", "labels"]

/-- One record of the node query
`MATCH (n:Entity) RETURN n, labels(n) AS labels`: the node's property map
and its labels. -/
structure NodeRecord where
  props : PyDict
  labels : List String

/-- One record of the edge query
`MATCH (a:Entity)-[r:RELATES_TO]->(b:Entity) RETURN a.uuid AS source,
b.uuid AS target, r`. -/
structure EdgeRecord where
  source : PyVal
  target : PyVal
  props : PyDict

/-- `if "Entity" in labels: labels = [l for l in labels if l != "Entity"]`. -/
def stripEntityLabel (labels : List String) : List String :=
  if "Entity" ∈ labels then labels.filter (fun l => l != "Entity") else labels

/-- The `attributes` dict comprehension of `_transform_nodes`. -/
def nodeAttributes (props : PyDict) : PyDict :=
  props.filter (fun kv => !(standardProps.contains kv.1) && !(kv.1.endsWith "_embedding"))

/-- One iteration of `GraphitiClient._transform_nodes`. -/
def transformNode (group_id : String) (r : NodeRecord) : PyDict :=
  let labels := stripEntityLabel r.labels
  [("id", pyGetD r.props "uuid" .vnone),
   ("uuid", pyGetD r.props "uuid" .vnone),
   ("name", pyGetD r.props "name" .vnone),
   ("summary", pyGetD r.props "summary" (.vstr "")),
   ("group_id", pyGetD r.props "group_id" (.vstr group_id)),
   ("created_at", pyGetD r.props "created_at" .vnone),
   ("labels", .vlist (labels.map .vstr)),
   ("type", .vstr (labels.headD "Entity")),
   ("attributes", .vdict (nodeAttributes r.props))]

/-- One iteration of `GraphitiClient._transform_edges`. -/
def transformEdge (group_id : String) (r : EdgeRecord) : PyDict :=
  [("uuid", pyGetD r.props "uuid" (.vstr "")),
   ("source", r.source),
   ("target", r.target),
   ("name", pyGetD r.props "name" (.vstr "")),
   ("fact", pyGetD r.props "fact" (.vstr "")),
   ("group_id", pyGetD r.props "group_id" (.vstr group_id)),
   ("created_at", pyGetD r.props "created_at" (.vstr "")),
   ("valid_at", pyGetD r.props "valid_at" .vnone),
   ("expired_at", pyGetD r.props "expired_at" .vnone),
   ("episodes", pyGetD r.props "episodes" (.vlist []))]

/-- Result shape of the graph-data service calls:
`{"success": ..., "nodes": ..., "edges": ...}` plus optional `"error"`. -/
structure GraphResult where
  success : Bool
  nodes : List PyDict
  edges : List PyDict
  error : Option String := none

/-- `GraphitiClient._get_single_graph_data`, with the two database query
results supplied as inputs. -/
def getSingleGraphData (group_id : String) (nodesResult : List NodeRecord)
    (edgesResult : List EdgeRecord) : GraphResult :=
  { success := true,
    nodes := nodesResult.map (transformNode group_id),
    edges := edgesResult.map (transformEdge group_id) }

/-- Result of `GraphitiClient.get_group_ids`. -/
structure GroupsResult where
  success : Bool
  group_ids : List String
  error : Option String := none

/-- The per-item dedup loop of `_get_all_graphs_data`
(`if node["id"] not in seen_node_ids: seen_node_ids.add(...); all_nodes.append(node)`).
The items produced by the transforms always carry the key, so `n[key]` is
modelled as lookup with `None` default. -/
def dedupInto (key : String) :
    List PyDict → List PyDict → List PyVal → List PyDict × List PyVal
  | [], acc, seen => (acc, seen)
  | n :: ns, acc, seen =>
      let k := pyGetD n key .vnone
      if k ∈ seen then dedupInto key ns acc seen
      else dedupInto key ns (acc ++ [n]) (k :: seen)

/-- The `for gid in group_ids` loop of `_get_all_graphs_data`.  `fetch gid`
is `_get_single_graph_data(gid, limit)`: `Except.error` models a raised
exception (caught, logged and skipped). -/
def mergeGroups (fetch : String → Except String GraphResult) :
    List String → List PyDict → List PyDict → List PyVal → List PyVal →
    List PyDict × List PyDict
  | [], accN, accE, _, _ => (accN, accE)
  | gid :: gids, accN, accE, seenN, seenE =>
      match fetch gid with
      | .error _ => mergeGroups fetch gids accN accE seenN seenE
      | .ok r =>
          if r.success then
            let pn := dedupInto "id" r.nodes accN seenN
            let pe := dedupInto "uuid" r.edges accE seenE
            mergeGroups fetch gids pn.1 pe.1 pn.2 pe.2
          else
            mergeGroups fetch gids accN accE seenN seenE

/-- `GraphitiClient._get_all_graphs_data`, with the group enumeration result
and the per-group fetch supplied as inputs. -/
def getAllGraphsData (groups : GroupsResult)
    (fetch : String → Except String GraphResult) : GraphResult :=
  if !groups.success then
    { success := false, nodes := [], edges := [], error := some "Failed to get groups" }
  else if groups.group_ids.isEmpty then
    { success := true, nodes := [], edges := [] }
  else
    let p := mergeGroups fetch groups.group_ids [] [] [] []
    { success := true, nodes := p.1, edges := p.2 }

/-! ## `GET /graph/data` route transforms (`src/api/graph_api.py`) -/

/-- The per-node dict comprehension of `get_graph_data` in `graph_api.py`
(`transformed_nodes`). -/
def apiTransformNode (node : PyDict) : PyDict :=
  [("id", pyGetD node "uuid" (.vstr "")),
   ("name", pyGetD node "name" (.vstr "Unknown")),
   ("type", pyGetD node "primaryLabel" (.vstr "Entity")),
   ("group_id", pyGetD node "group_id" (.vstr "")),
   ("summary", pyGetD node "summary" (.vstr "")),
   ("labels", pyGetD node "labels" (.vlist [])),
   ("created_at", pyGetD node "created_at" (.vstr "")),
   ("attributes", .vdict ((pyGetD node "attributes" (.vdict [])).asDict.filter
      (fun kv => !(kv.1.endsWith "_embedding"))))]

/-- The per-edge dict comprehension of `get_graph_data` in `graph_api.py`
(`transformed_edges`); `edge.get("name") or edge.get("type", "RELATES_TO")`
is Python truthiness-`or`. -/
def apiTransformEdge (edge : PyDict) : PyDict :=
  [("source", pyGetD edge "source_node_uuid" (.vstr "")),
   ("target", pyGetD edge "target_node_uuid" (.vstr "")),
   ("type", if pyTruthy (pyGetD edge "name" .vnone) then pyGetD edge "name" .vnone
            else pyGetD edge "type" (.vstr "RELATES_TO")),
   ("fact", pyGetD edge "fact" (.vstr "")),
   ("uuid", pyGetD edge "uuid" (.vstr "")),
   ("created_at", pyGetD edge "created_at" (.vstr "")),
   ("valid_at", pyGetD edge "valid_at" .vnone),
   ("expired_at", pyGetD edge "expired_at" .vnone),
   ("episodes", pyGetD edge "episodes" (.vlist []))]

/-- The `GET /graph/data` response body restricted to the fields the claims
are about. -/
structure GraphDataResponse where
  success : Bool
  nodes : List PyDict
  edges : List PyDict
  error : Option String := none

/-- The body of the `get_graph_data` route handler, applied to the service
result `data`. -/
def getGraphDataRouteBody (data : GraphResult) : GraphDataResponse :=
  if !data.success then
    { success := false, nodes := [], edges := [],
      error := some (data.error.getD "Unknown error") }
  else
    { success := true,
      nodes := data.nodes.map apiTransformNode,
      edges := data.edges.map apiTransformEdge }

/-- Outcome of a FastAPI route: query-parameter validation failure (HTTP 422,
handler never entered) or the handler's response. -/
inductive RouteOutcome (α : Type) where
  | validationFailure : RouteOutcome α
  | handled (a : α) : RouteOutcome α
  deriving Repr

/-- FastAPI's validation of `limit: int = Query(default=500, ge=1, le=10000)`
on `GET /graph/data`: the handler (and hence any data fetch) runs only for
`1 ≤ limit ≤ 10000`. -/
def getGraphDataRoute (limit : Int) (handler : Int → GraphDataResponse) :
    RouteOutcome GraphDataResponse :=
  if 1 ≤ limit ∧ limit ≤ 10000 then .handled (handler limit) else .validationFailure

/-! ## `GraphitiClient.get_edge_details` (`src/services/graphiti_service.py`)

The success path of `get_edge_details` evaluates `EntityEdge.get_by_uuid`.
Name resolution in Python looks the identifier up among the module's
global bindings (imports and top-level definitions; no builtin is called
`EntityEdge`); an unbound name raises `NameError`, which the final
`except Exception` clause converts into an error result. -/

/-- The names bound at module level in `src/services/graphiti_service.py`:
its imports (lines 6–16) and top-level definitions. -/
def graphitiServiceGlobals : List String :=
  ["logging", "Any", "httpx", "Graphiti", "FalkorDriver",
   "OpenAIEmbedder", "OpenAIEmbedderConfig", "EdgeNotFoundError",
   "NodeNotFoundError", "EntityNode", "EpisodicNode", "get_settings",
   "logger", "GraphitiClient", "_client", "get_graphiti_client"]

/-- Result shape of `GraphitiClient.get_edge_details`. -/
structure EdgeDetailsResult where
  success : Bool
  edge : Option PyDict := none
  error : Option String := none

/-- `GraphitiClient.get_edge_details`.  `lookupEdge` stands for the database
read `EntityEdge.get_by_uuid(driver, uuid)` (`Except.error` models
`EdgeNotFoundError` or any other exception); it is only reached when the
name `EntityEdge` resolves in the module environment `env`. -/
def getEdgeDetails (env : List String) (lookupEdge : String → Except String PyDict)
    (uuid : String) : EdgeDetailsResult :=
  if "EntityEdge" ∈ env then
    match lookupEdge uuid with
    | .ok e => { success := true, edge := some e }
    | .error msg => { success := false, error := some msg }
  else
    { success := false, error := some "NameError: name EntityEdge is not defined" }

/-- Response of the `GET /graph/edge/` route handler in `graph_api.py`. -/
structure EdgeDetailsResponse where
  success : Bool
  edge : Option PyDict := none
  source : Option PyDict := none
  target : Option PyDict := none
  error : Option String := none

/-- The `get_edge_details` route handler body applied to the service result:
on service success it returns the edge details, otherwise an error dict. -/
def getEdgeDetailsRoute (svc : EdgeDetailsResult) : EdgeDetailsResponse :=
  if svc.success then
    { success := true, edge := some (svc.edge.getD []),
      source := some [], target := some [] }
  else
    { success := false, error := some (svc.error.getD "Edge not found") }

/-! ## `PUT /graph/group/.../rename` validation (`src/api/graph_api.py`) -/

/-- `s.startswith(p)` on the character list. -/
def pyStartsWith (s p : String) : Bool := p.data.isPrefixOf s.data

/-- `s[:n]` on the character list. -/
def pyTake (s : String) (n : Nat) : String := ⟨s.data.take n⟩

/-- Python whitespace for `str.strip()` (ASCII range). -/
def pyIsSpace (c : Char) : Bool :=
  c = ' ' || c = '\t' || c = '\n' || c = '\r' || c = '\x0b' || c = '\x0c'

/-- `s.strip()`: remove leading and trailing whitespace. -/
def pyStrip (s : String) : String :=
  ⟨((s.data.dropWhile pyIsSpace).reverse.dropWhile pyIsSpace).reverse⟩

/-- Outcome of the `rename_graph` route handler up to the backend call:
either an early validation rejection (no mutation is attempted) or the call
`client.rename_graph(group_id, new_name)` with the arguments the handler
passes. -/
inductive RenameOutcome where
  | rejected (error : String) : RenameOutcome
  | renameAttempted (group_id new_name : String) : RenameOutcome
  deriving DecidableEq, Repr

/-- The validation logic of the `rename_graph` route handler:
`if not request.new_name or not request.new_name.strip(): reject`;
`new_name = request.new_name.strip()`; `if new_name == group_id: reject`;
otherwise call the service. -/
def renameGraphRoute (group_id new_name_req : String) : RenameOutcome :=
  if new_name_req = "" || pyStrip new_name_req = "" then
    .rejected "New name cannot be empty"
  else
    let new_name := pyStrip new_name_req
    if new_name = group_id then
      .rejected "New name is the same as current name"
    else
      .renameAttempted group_id new_name

/-! ## `EntityTypeService.update` (`src/services/entity_type_service.py`) -/

/-- An entity type as stored in the serialized collection
(`EntityType.to_dict`).  `fields` entries are open dicts. -/
structure EntityTypeRec where
  name : String
  description : String
  fields : List PyDict
  source : String
  created_at : String
  modified_at : Option String
  deriving DecidableEq, Repr

/-- The `for i, t in enumerate(types_list)` loop of `EntityTypeService.update`:
on the first entry whose `name` matches, overwrite the supplied fields, stamp
`modified_at` and `source = "api"`, and stop; return the new list and the
updated record. -/
def updateTypesList (name : String) (description : Option String)
    (fields : Option (List PyDict)) (now : String) :
    List EntityTypeRec → Option (List EntityTypeRec × EntityTypeRec)
  | [] => none
  | t :: ts =>
      if t.name = name then
        let t' : EntityTypeRec :=
          { t with
            description := description.getD t.description,
            fields := fields.getD t.fields,
            modified_at := some now,
            source := "api" }
        some (t' :: ts, t')
      else
        (updateTypesList name description fields now ts).map
          (fun p => (t :: p.1, p.2))

/-- `EntityTypeService.update`: the stored collection after the call and the
returned entity type (`none` means not found; the collection is then left
unchanged — the service only writes back after a match). -/
def entityTypeUpdate (store : List EntityTypeRec) (name : String)
    (description : Option String) (fields : Option (List PyDict)) (now : String) :
    List EntityTypeRec × Option EntityTypeRec :=
  match updateTypesList name description fields now store with
  | none => (store, none)
  | some p => (p.1, some p.2)

/-! ## API keys (`src/services/api_key_service.py`)

`_hash_key` is SHA-256; it is taken as a parameter `hash` here, with
collision-freedom (injectivity) as an explicit hypothesis where needed.
`secrets.token_urlsafe(32)` is taken as the input `token`. -/

/-- One entry of the `api_keys.json` store (`key_entry` in `create_api_key`);
`key_pfx` models the stored `key_prefix` field. -/
structure ApiKeyEntry where
  name : String
  key_hash : String
  key_pfx : String
  full_key : String
  created_at : String
  last_used : Option String
  deriving DecidableEq, Repr

/-- `generate_api_key()`, with the random token as input. -/
def generateApiKey (token : String) : String := "gk_" ++ token

/-- The response dict of `create_api_key`. -/
structure CreateKeyResponse where
  name : String
  key : String
  key_pfx : String
  created_at : String
  deriving DecidableEq, Repr

/-- `create_api_key(name)`: append the new entry to the store and return the
key details. -/
def createApiKey (hash : String → String) (store : List ApiKeyEntry)
    (name token now : String) : List ApiKeyEntry × CreateKeyResponse :=
  let key := generateApiKey token
  let entry : ApiKeyEntry :=
    { name := name, key_hash := hash key, key_pfx := pyTake key 12,
      full_key := key, created_at := now, last_used := none }
  (store ++ [entry],
   { name := name, key := key, key_pfx := pyTake key 12, created_at := now })

/-- `delete_api_key(key_prefix)`: drop entries with that stored prefix;
`true` iff anything was removed (the file is only rewritten then). -/
def deleteApiKey (store : List ApiKeyEntry) (pfx : String) :
    Bool × List ApiKeyEntry :=
  let remaining := store.filter (fun k => k.key_pfx != pfx)
  if remaining.length < store.length then (true, remaining) else (false, store)

/-- The `for k in data["keys"]` loop of `validate_api_key`: find the first
entry whose `key_hash` equals `h`, stamp its `last_used` with `now`, and
return the saved store; `none` if no entry matches. -/
def validateLoop (h now : String) :
    List ApiKeyEntry → Option (List ApiKeyEntry)
  | [] => none
  | k :: ks =>
      if k.key_hash = h then some ({ k with last_used := some now } :: ks)
      else (validateLoop h now ks).map (fun ks' => k :: ks')

/-- `validate_api_key(key)`: the boolean result and the stored collection
after the call (written back only on success). -/
def validateApiKey (hash : String → String) (store : List ApiKeyEntry)
    (key now : String) : Bool × List ApiKeyEntry :=
  if key = "" || !(pyStartsWith key "gk_") then (false, store)
  else
    match validateLoop (hash key) now store with
    | some store' => (true, store')
    | none => (false, store)

/-! ## Specification-side helpers for the merge loop -/

/-- First-occurrence-wins deduplication by the value at `key`: keep an item
iff its key value has not been seen before. -/
def dedupFirst (key : String) : List PyDict → List PyVal → List PyDict
  | [], _ => []
  | n :: ns, seen =>
      let k := pyGetD n key .vnone
      if k ∈ seen then dedupFirst key ns seen
      else n :: dedupFirst key ns (k :: seen)

/-- The seen-set after scanning a list. -/
def seenAfter (key : String) : List PyDict → List PyVal → List PyVal
  | [], seen => seen
  | n :: ns, seen =>
      let k := pyGetD n key .vnone
      if k ∈ seen then seenAfter key ns seen
      else seenAfter key ns (k :: seen)

/-- Nodes contributed by the groups whose query succeeded, in group-iteration
order. -/
def successNodes (fetch : String → Except String GraphResult) :
    List String → List PyDict
  | [] => []
  | gid :: gids =>
      (match fetch gid with
       | .ok r => if r.success then r.nodes else []
       | .error _ => []) ++ successNodes fetch gids

/-- Edges contributed by the groups whose query succeeded, in group-iteration
order. -/
def successEdges (fetch : String → Except String GraphResult) :
    List String → List PyDict
  | [] => []
  | gid :: gids =>
      (match fetch gid with
       | .ok r => if r.success then r.edges else []
       | .error _ => []) ++ successEdges fetch gids

/-- A database backing `_get_single_graph_data`: per group either the two
query results or a raised exception. -/
def fetchSingle
    (db : String → Except String (List NodeRecord × List EdgeRecord))
    (gid : String) : Except String GraphResult :=
  (db gid).map (fun p => getSingleGraphData gid p.1 p.2)

/-- The full nodes/edges part of a successful single-group
`GET /graph/data` response. -/
def singleGroupResponse (group_id : String) (nodesResult : List NodeRecord)
    (edgesResult : List EdgeRecord) : GraphDataResponse :=
  getGraphDataRouteBody (getSingleGraphData group_id nodesResult edgesResult)

theorem dedupInto_eq (key : String) :
    ∀ (ns acc : List PyDict) (seen : List PyVal),
      dedupInto key ns acc seen =
        (acc ++ dedupFirst key ns seen, seenAfter key ns seen)
  | [], acc, seen => by simp [dedupInto, dedupFirst, seenAfter]
  | n :: ns, acc, seen => by
      by_cases h : pyGetD n key .vnone ∈ seen
      · simp [dedupInto, dedupFirst, seenAfter, h, dedupInto_eq key ns acc seen]
      · simp [dedupInto, dedupFirst, seenAfter, h,
          dedupInto_eq key ns (acc ++ [n]) (pyGetD n key .vnone :: seen)]

theorem dedupFirst_append (key : String) (ys : List PyDict) :
    ∀ (xs : List PyDict) (seen : List PyVal),
      dedupFirst key (xs ++ ys) seen =
        dedupFirst key xs seen ++ dedupFirst key ys (seenAfter key xs seen)
  | [], seen => by simp [dedupFirst, seenAfter]
  | x :: xs, seen => by
      by_cases h : pyGetD x key .vnone ∈ seen
      · simp [dedupFirst, seenAfter, h, dedupFirst_append key ys xs seen]
      · simp [dedupFirst, seenAfter, h,
          dedupFirst_append key ys xs (pyGetD x key .vnone :: seen)]

/-- Characterization of the `_get_all_graphs_data` loop: the accumulated
nodes (resp. edges) are the concatenation, group by group, of the successful
groups' items, first-occurrence-wins-deduplicated by `"id"` (resp.
`"uuid"`). -/
theorem mergeGroups_eq (fetch : String → Except String GraphResult) :
    ∀ (gids : List String) (accN accE : List PyDict) (seenN seenE : List PyVal),
      mergeGroups fetch gids accN accE seenN seenE =
        (accN ++ dedupFirst "id" (successNodes fetch gids) seenN,
         accE ++ dedupFirst "uuid" (successEdges fetch gids) seenE)
  | [], accN, accE, seenN, seenE => by
      simp [mergeGroups, successNodes, successEdges, dedupFirst]
  | gid :: gids, accN, accE, seenN, seenE => by
      rcases hf : fetch gid with e | r
      · simp [mergeGroups, successNodes, successEdges, hf,
          mergeGroups_eq fetch gids accN accE seenN seenE]
      · by_cases hs : r.success
        · simp only [mergeGroups, hf, hs, if_true, dedupInto_eq,
            mergeGroups_eq fetch gids, successNodes, successEdges,
            dedupFirst_append, List.append_assoc]
        · simp [mergeGroups, successNodes, successEdges, hf, hs,
            mergeGroups_eq fetch gids accN accE seenN seenE]

theorem dedupFirst_key_nodup (key : String) :
    ∀ (ns : List PyDict) (seen : List PyVal),
      ((dedupFirst key ns seen).map (fun n => pyGetD n key .vnone)).Nodup ∧
      ∀ k ∈ (dedupFirst key ns seen).map (fun n => pyGetD n key .vnone), k ∉ seen
  | [], seen => by simp [dedupFirst]
  | n :: ns, seen => by
      by_cases h : pyGetD n key .vnone ∈ seen
      · simpa [dedupFirst, h] using dedupFirst_key_nodup key ns seen
      · obtain ⟨hnd, hseen⟩ := dedupFirst_key_nodup key ns (pyGetD n key .vnone :: seen)
        refine ⟨?_, ?_⟩
        · simp only [dedupFirst, h, if_false, List.map_cons, List.nodup_cons]
          exact ⟨fun hmem => (hseen _ hmem) (List.mem_cons_self _ _), hnd⟩
        · intro k hk
          simp only [dedupFirst, h, if_false, List.map_cons, List.mem_cons] at hk
          rcases hk with rfl | hk
          · exact h
          · exact fun hks => (hseen k hk) (List.mem_cons_of_mem _ hks)

theorem mem_map_dedupFirst (key : String) :
    ∀ (ns : List PyDict) (seen : List PyVal) (k : PyVal),
      k ∈ ns.map (fun n => pyGetD n key .vnone) → k ∉ seen →
      k ∈ (dedupFirst key ns seen).map (fun n => pyGetD n key .vnone)
  | [], _, _, hk, _ => by simp at hk
  | n :: ns, seen, k, hk, hseen => by
      simp only [List.map_cons, List.mem_cons] at hk
      by_cases h : pyGetD n key .vnone ∈ seen
      · rcases hk with rfl | hk
        · exact absurd h hseen
        · simpa [dedupFirst, h] using mem_map_dedupFirst key ns seen k hk hseen
      · rcases hk with rfl | hk
        · simp [dedupFirst, h]
        · by_cases hkn : k = pyGetD n key .vnone
          · subst hkn; simp [dedupFirst, h]
          · have := mem_map_dedupFirst key ns (pyGetD n key .vnone :: seen) k hk
              (by simp [hkn, hseen])
            simp only [dedupFirst, h, if_false, List.map_cons, List.mem_cons]
            exact Or.inr this

theorem dedupFirst_key_congr (k1 k2 : String) :
    ∀ (ns : List PyDict) (seen : List PyVal),
      (∀ n ∈ ns, pyGetD n k1 .vnone = pyGetD n k2 .vnone) →
      dedupFirst k1 ns seen = dedupFirst k2 ns seen
  | [], _, _ => by simp [dedupFirst]
  | n :: ns, seen, hkeys => by
      have hn := hkeys n (List.mem_cons_self _ _)
      have hrest : ∀ m ∈ ns, pyGetD m k1 .vnone = pyGetD m k2 .vnone :=
        fun m hm => hkeys m (List.mem_cons_of_mem _ hm)
      by_cases h : pyGetD n k1 .vnone ∈ seen
      · simp [dedupFirst, h, hn ▸ h, ← hn, dedupFirst_key_congr k1 k2 ns seen hrest]
      · simp [dedupFirst, h, ← hn, dedupFirst_key_congr k1 k2 ns _ hrest]

/-- Helper: in the dicts produced by `_transform_nodes`, the `"id"` and
`"uuid"` entries hold the same value. -/
theorem transformNode_id_eq_uuid (gid : String) (r : NodeRecord) :
    pyGetD (transformNode gid r) "id" .vnone =
      pyGetD (transformNode gid r) "uuid" .vnone := rfl

/-! ## Claim theorems -/

/-- **C7.** A `GET /graph/data` request with `limit = 0` or negative is
rejected by the FastAPI query validation (`ge=1`) before the handler — and
hence any data fetch — runs, and is not treated as unlimited; limits between
`1` and `10000` are accepted and passed to the handler. -/
theorem limit_bounds_validation (limit : Int) (handler : Int → GraphDataResponse) :
    (limit ≤ 0 → getGraphDataRoute limit handler = .validationFailure) ∧
    (1 ≤ limit → limit ≤ 10000 →
      getGraphDataRoute limit handler = .handled (handler limit)) := by
  constructor
  · intro h
    rw [getGraphDataRoute, if_neg (by omega)]
  · intro h1 h2
    rw [getGraphDataRoute, if_pos ⟨h1, h2⟩]

/-- Witness for `limit_bounds_validation` at `limit = 0` and `limit = 500`. -/
theorem limit_bounds_validation_witness :
    ((0 : Int) ≤ 0 ∧
      getGraphDataRoute 0 (fun _ => ⟨true, [], [], none⟩) = .validationFailure) ∧
    ((1 : Int) ≤ 500 ∧ (500 : Int) ≤ 10000 ∧
      getGraphDataRoute 500 (fun _ => ⟨true, [], [], none⟩) =
        .handled ⟨true, [], [], none⟩) :=
  ⟨⟨le_refl 0, (limit_bounds_validation 0 _).1 (le_refl 0)⟩,
   ⟨by norm_num, by norm_num,
    (limit_bounds_validation 500 _).2 (by norm_num) (by norm_num)⟩⟩

/-- **C6.** The name `EntityEdge` is not bound in the module environment of
`graphiti_service.py`, so `GraphitiClient.get_edge_details` always raises
`NameError` in its success branch and the generic handler converts every
call into an error result; consequently the `GET /graph/edge/` route can
never return edge details. -/
theorem get_edge_details_always_error
    (lookupEdge : String → Except String PyDict) (uuid : String) :
    graphitiServiceGlobals.contains "EntityEdge" = false ∧
    (getEdgeDetails graphitiServiceGlobals lookupEdge uuid).success = false ∧
    (getEdgeDetails graphitiServiceGlobals lookupEdge uuid).edge = none ∧
    getEdgeDetailsRoute (getEdgeDetails graphitiServiceGlobals lookupEdge uuid) =
      { success := false,
        error := some "NameError: name EntityEdge is not defined" } := by
  have hmem : "EntityEdge" ∉ graphitiServiceGlobals := by decide
  refine ⟨by decide, ?_, ?_, ?_⟩ <;>
    simp [getEdgeDetails, getEdgeDetailsRoute, hmem]

/-- **C8 counterexample.** For `old = " g "` and `new = " g "` — equal
strings — the rename route does not reject: it strips the new name and
calls `client.rename_graph(" g ", "g")`, i.e. a mutation is attempted even
though the requested new name equals the old one. -/
theorem rename_equal_untrimmed_accepted :
    renameGraphRoute " g " " g " = .renameAttempted " g " "g" := by decide

/-- **C8 (amended).** If the requested new name is empty, whitespace-only,
or equal to the old name after trimming surrounding whitespace from the new
name, the request is rejected with a validation error and the backend rename
(the only mutation) is never invoked. -/
theorem rename_validation_trimmed (group_id new_name : String)
    (h : new_name = "" ∨ pyStrip new_name = "" ∨ pyStrip new_name = group_id) :
    ∃ e, renameGraphRoute group_id new_name = .rejected e := by
  unfold renameGraphRoute
  by_cases h1 : new_name = "" ∨ pyStrip new_name = ""
  · refine ⟨"New name cannot be empty", ?_⟩
    rcases h1 with h1 | h1 <;> simp [h1]
  · push_neg at h1
    have h2 : pyStrip new_name = group_id := by
      rcases h with h | h | h
      · exact absurd h h1.1
      · exact absurd h h1.2
      · exact h
    have h3 : group_id ≠ "" := fun hg => h1.2 (h2.trans hg)
    exact ⟨"New name is the same as current name", by simp [h1.1, h1.2, h2, h3]⟩

/-- Witness for `rename_validation_trimmed`: `old = "g"`, `new = " g "`. -/
theorem rename_validation_trimmed_witness :
    pyStrip " g " = "g" ∧ ∃ e, renameGraphRoute "g" " g " = .rejected e :=
  ⟨by decide, rename_validation_trimmed "g" " g " (Or.inr (Or.inr (by decide)))⟩

/-- Every node contributed through `fetchSingle` is a `_transform_nodes`
output, so its `"id"` and `"uuid"` entries agree. -/
theorem successNodes_fetchSingle_id_eq_uuid
    (db : String → Except String (List NodeRecord × List EdgeRecord)) :
    ∀ gids, ∀ n ∈ successNodes (fetchSingle db) gids,
      pyGetD n "id" .vnone = pyGetD n "uuid" .vnone
  | [], n, hn => by simp [successNodes] at hn
  | gid :: gids, n, hn => by
      rcases hdb : db gid with e | p
      · have hf : fetchSingle db gid = .error e := by
          simp [fetchSingle, hdb, Except.map]
        simp only [successNodes, hf, List.nil_append] at hn
        exact successNodes_fetchSingle_id_eq_uuid db gids n hn
      · have hf : fetchSingle db gid = .ok (getSingleGraphData gid p.1 p.2) := by
          simp [fetchSingle, hdb, Except.map]
        simp only [successNodes, hf, getSingleGraphData, if_true, List.mem_append] at hn
        rcases hn with hn | hn
        · obtain ⟨r, _, rfl⟩ := List.mem_map.mp hn
          exact transformNode_id_eq_uuid gid r
        · exact successNodes_fetchSingle_id_eq_uuid db gids n hn

/-- Helper: `getAllGraphsData` on a successful group enumeration returns the
deduplicated concatenations (key `"id"` for nodes, `"uuid"` for edges). -/
theorem getAllGraphsData_ok (groups : GroupsResult)
    (fetch : String → Except String GraphResult) (h : groups.success = true) :
    getAllGraphsData groups fetch =
      { success := true,
        nodes := dedupFirst "id" (successNodes fetch groups.group_ids) [],
        edges := dedupFirst "uuid" (successEdges fetch groups.group_ids) [] } := by
  unfold getAllGraphsData
  by_cases he : groups.group_ids.isEmpty
  · have hnil : groups.group_ids = [] := by
      cases hg : groups.group_ids
      · rfl
      · rw [hg] at he; simp at he
    simp [h, he, hnil, successNodes, successEdges, dedupFirst]
  · simp [h, he, mergeGroups_eq fetch groups.group_ids]

/-- **C1.** For a fetch across all groups backed by per-group single-graph
queries, the merged node list (resp. edge list) equals the concatenation of
the successful groups' lists in group-iteration order, deduplicated by
`uuid` keeping the first occurrence and silently dropping later duplicates;
in particular every node uuid and every edge uuid occurs at most once. -/
theorem all_groups_dedup_first_wins
    (db : String → Except String (List NodeRecord × List EdgeRecord))
    (groups : GroupsResult) (h : groups.success = true) :
    (getAllGraphsData groups (fetchSingle db)).nodes =
      dedupFirst "uuid" (successNodes (fetchSingle db) groups.group_ids) [] ∧
    (getAllGraphsData groups (fetchSingle db)).edges =
      dedupFirst "uuid" (successEdges (fetchSingle db) groups.group_ids) [] ∧
    ((getAllGraphsData groups (fetchSingle db)).nodes.map
        (fun n => pyGetD n "uuid" .vnone)).Nodup ∧
    ((getAllGraphsData groups (fetchSingle db)).edges.map
        (fun n => pyGetD n "uuid" .vnone)).Nodup := by
  have hkey :
      dedupFirst "id" (successNodes (fetchSingle db) groups.group_ids) [] =
      dedupFirst "uuid" (successNodes (fetchSingle db) groups.group_ids) [] :=
    dedupFirst_key_congr "id" "uuid" _ []
      (successNodes_fetchSingle_id_eq_uuid db groups.group_ids)
  have hres := getAllGraphsData_ok groups (fetchSingle db) h
  rw [hres]
  exact ⟨hkey, rfl,
    hkey ▸ (dedupFirst_key_nodup "uuid" _ []).1,
    (dedupFirst_key_nodup "uuid" _ []).1⟩

/-- A two-group database injecting the same node uuid `"a"` into both
groups (used as the concrete input of the C1 witness). -/
def dupDb : String → Except String (List NodeRecord × List EdgeRecord) :=
  fun gid =>
    if gid = "g1" then
      .ok ([⟨[("uuid", .vstr "a"), ("name", .vstr "A")], ["Entity"]⟩], [])
    else if gid = "g2" then
      .ok ([⟨[("uuid", .vstr "a"), ("name", .vstr "A2")], ["Entity"]⟩,
            ⟨[("uuid", .vstr "b")], ["Entity"]⟩], [])
    else .error "boom"

/-- Witness for `all_groups_dedup_first_wins` on `dupDb` with groups
`["g1", "g2"]`. -/
theorem all_groups_dedup_first_wins_witness :
    (GroupsResult.mk true ["g1", "g2"] none).success = true ∧
    ((getAllGraphsData ⟨true, ["g1", "g2"], none⟩ (fetchSingle dupDb)).nodes =
        dedupFirst "uuid" (successNodes (fetchSingle dupDb) ["g1", "g2"]) [] ∧
      (getAllGraphsData ⟨true, ["g1", "g2"], none⟩ (fetchSingle dupDb)).edges =
        dedupFirst "uuid" (successEdges (fetchSingle dupDb) ["g1", "g2"]) [] ∧
      ((getAllGraphsData ⟨true, ["g1", "g2"], none⟩ (fetchSingle dupDb)).nodes.map
          (fun n => pyGetD n "uuid" .vnone)).Nodup ∧
      ((getAllGraphsData ⟨true, ["g1", "g2"], none⟩ (fetchSingle dupDb)).edges.map
          (fun n => pyGetD n "uuid" .vnone)).Nodup) :=
  ⟨rfl, all_groups_dedup_first_wins dupDb ⟨true, ["g1", "g2"], none⟩ rfl⟩

theorem mem_successNodes (fetch : String → Except String GraphResult) :
    ∀ (gids : List String) (gid : String), gid ∈ gids →
      ∀ r, fetch gid = .ok r → r.success = true →
      ∀ n ∈ r.nodes, n ∈ successNodes fetch gids
  | [], gid, hg, _, _, _, _, _ => by simp at hg
  | g :: gids, gid, hg, r, hf, hs, n, hn => by
      rcases List.mem_cons.mp hg with rfl | hg
      · simp only [successNodes, hf, hs, if_true, List.mem_append]
        exact Or.inl hn
      · simp only [successNodes, List.mem_append]
        exact Or.inr (mem_successNodes fetch gids gid hg r hf hs n hn)

theorem mem_successEdges (fetch : String → Except String GraphResult) :
    ∀ (gids : List String) (gid : String), gid ∈ gids →
      ∀ r, fetch gid = .ok r → r.success = true →
      ∀ e ∈ r.edges, e ∈ successEdges fetch gids
  | [], gid, hg, _, _, _, _, _ => by simp at hg
  | g :: gids, gid, hg, r, hf, hs, e, he => by
      rcases List.mem_cons.mp hg with rfl | hg
      · simp only [successEdges, hf, hs, if_true, List.mem_append]
        exact Or.inl he
      · simp only [successEdges, List.mem_append]
        exact Or.inr (mem_successEdges fetch gids gid hg r hf hs e he)

/-- **C2.** During a fetch across all groups, a failing single-group query
(raised exception or unsuccessful result) is skipped while the other
groups' nodes and edges are still returned, with overall `success = true`;
the overall call fails exactly when the group enumeration fails. -/
theorem multi_group_failure_policy
    (groups : GroupsResult) (fetch : String → Except String GraphResult) :
    (groups.success = false →
      getAllGraphsData groups fetch =
        { success := false, nodes := [], edges := [],
          error := some "Failed to get groups" }) ∧
    (groups.success = true → (getAllGraphsData groups fetch).success = true) ∧
    (groups.success = true →
      ∀ gid ∈ groups.group_ids, ∀ r, fetch gid = .ok r → r.success = true →
        (∀ n ∈ r.nodes,
          pyGetD n "id" .vnone ∈
            (getAllGraphsData groups fetch).nodes.map
              (fun m => pyGetD m "id" .vnone)) ∧
        (∀ e ∈ r.edges,
          pyGetD e "uuid" .vnone ∈
            (getAllGraphsData groups fetch).edges.map
              (fun m => pyGetD m "uuid" .vnone))) := by
  refine ⟨?_, ?_, ?_⟩
  · intro h
    unfold getAllGraphsData
    simp [h]
  · intro h
    rw [getAllGraphsData_ok groups fetch h]
  · intro h gid hg r hf hs
    rw [getAllGraphsData_ok groups fetch h]
    constructor
    · intro n hn
      exact mem_map_dedupFirst "id" _ [] _
        (List.mem_map_of_mem _ (mem_successNodes fetch groups.group_ids gid hg r hf hs n hn))
        (by simp)
    · intro e he
      exact mem_map_dedupFirst "uuid" _ [] _
        (List.mem_map_of_mem _ (mem_successEdges fetch groups.group_ids gid hg r hf hs e he))
        (by simp)

/-- Three groups, the second of which raises on query (concrete input of
the C2 witness). -/
def lossyFetch : String → Except String GraphResult :=
  fun gid =>
    if gid = "g1" then
      .ok { success := true, nodes := [[("id", .vstr "a")]],
            edges := [[("uuid", .vstr "e1")]] }
    else if gid = "g2" then .error "connection refused"
    else .ok { success := true, nodes := [[("id", .vstr "b")]], edges := [] }

/-- Witness for `multi_group_failure_policy`: with one of three
groups raising, the aggregation still succeeds and returns the surviving
groups' data. -/
theorem multi_group_failure_policy_witness :
    (getAllGraphsData ⟨true, ["g1", "g2", "g3"], none⟩ lossyFetch).success = true ∧
    PyVal.vstr "b" ∈
      (getAllGraphsData ⟨true, ["g1", "g2", "g3"], none⟩ lossyFetch).nodes.map
        (fun m => pyGetD m "id" .vnone) ∧
    PyVal.vstr "e1" ∈
      (getAllGraphsData ⟨true, ["g1", "g2", "g3"], none⟩ lossyFetch).edges.map
        (fun m => pyGetD m "uuid" .vnone) :=
  ⟨(multi_group_failure_policy ⟨true, ["g1", "g2", "g3"], none⟩
      lossyFetch).2.1 rfl,
   ((multi_group_failure_policy ⟨true, ["g1", "g2", "g3"], none⟩
      lossyFetch).2.2 rfl "g3" (by decide) _ rfl rfl).1
     [("id", .vstr "b")] (by decide),
   ((multi_group_failure_policy ⟨true, ["g1", "g2", "g3"], none⟩
      lossyFetch).2.2 rfl "g1" (by decide) _ rfl rfl).2
     [("uuid", .vstr "e1")] (by decide)⟩

/-- **C3 (code defect).** In the final `GET /graph/data` response the
`type` field of every node is the fallback `"Entity"` regardless of the
node's labels: the route reads `node.get("primaryLabel", "Entity")` but the
service layer stores the primary label under `"type"` and never binds
`"primaryLabel"`.  Concretely, a node labelled `Person` — whose primary
non-structural label is `"Person"`, as the service-level `"type"` entry
shows — is reported with `type = "Entity"`, contradicting the claim. -/
theorem response_node_type_always_entity (gid : String) (ns : List NodeRecord)
    (es : List EdgeRecord) (r : NodeRecord) :
    (singleGroupResponse gid ns es).nodes =
      ns.map (fun q => apiTransformNode (transformNode gid q)) ∧
    pyGet (apiTransformNode (transformNode gid r)) "type" =
      some (.vstr "Entity") ∧
    pyGet (transformNode gid ⟨[("uuid", .vstr "n1")], ["Entity", "Person"]⟩)
      "type" = some (.vstr "Person") ∧
    pyGet (apiTransformNode (transformNode gid
      ⟨[("uuid", .vstr "n1")], ["Entity", "Person"]⟩)) "type" =
      some (.vstr "Entity") := by
  refine ⟨?_, rfl, rfl, rfl⟩
  simp [singleGroupResponse, getGraphDataRouteBody, getSingleGraphData,
    List.map_map, Function.comp_def]

/-- **C4 (code defect).** In the final `GET /graph/data` response every
edge has `source = ""` and `target = ""`: the route reads
`edge.get("source_node_uuid", "")`/`edge.get("target_node_uuid", "")` but
the service layer stores the endpoints under `"source"`/`"target"`.  The
`type` field does behave as claimed (`name` if truthy, else
`"RELATES_TO"`).  Concretely an edge from node `"a"` to node `"b"` — whose
service-level `"source"` entry is `"a"` — is reported with `source = ""`. -/
theorem response_edge_endpoints_blank (gid : String) (ns : List NodeRecord)
    (es : List EdgeRecord) (r : EdgeRecord) :
    (singleGroupResponse gid ns es).edges =
      es.map (fun q => apiTransformEdge (transformEdge gid q)) ∧
    pyGet (apiTransformEdge (transformEdge gid r)) "source" =
      some (.vstr "") ∧
    pyGet (apiTransformEdge (transformEdge gid r)) "target" =
      some (.vstr "") ∧
    pyGet (apiTransformEdge (transformEdge gid r)) "type" =
      some (if pyTruthy (pyGetD r.props "name" (.vstr "")) then
              pyGetD r.props "name" (.vstr "")
            else .vstr "RELATES_TO") ∧
    pyGet (transformEdge gid ⟨.vstr "a", .vstr "b",
      [("uuid", .vstr "e1"), ("name", .vstr "KNOWS")]⟩) "source" =
      some (.vstr "a") ∧
    pyGet (apiTransformEdge (transformEdge gid ⟨.vstr "a", .vstr "b",
      [("uuid", .vstr "e1"), ("name", .vstr "KNOWS")]⟩)) "source" =
      some (.vstr "") := by
  refine ⟨?_, rfl, rfl, rfl, rfl, rfl⟩
  simp [singleGroupResponse, getGraphDataRouteBody, getSingleGraphData,
    List.map_map, Function.comp_def]

/-- **C5.** In every node of the `GET /graph/data` response, the
`attributes` map contains no key ending in `"_embedding"`, and every
original property whose key is neither one of the standard fields nor ends
in `"_embedding"` is preserved with its value. -/
theorem response_attributes_embedding_filtered (gid : String) (r : NodeRecord) :
    (pyGetD (apiTransformNode (transformNode gid r)) "attributes"
        (.vdict [])).asDict =
      (nodeAttributes r.props).filter (fun kv => !(kv.1.endsWith "_embedding")) ∧
    (∀ kv ∈ (pyGetD (apiTransformNode (transformNode gid r)) "attributes"
        (.vdict [])).asDict, kv.1.endsWith "_embedding" = false) ∧
    (∀ kv ∈ r.props, standardProps.contains kv.1 = false →
      kv.1.endsWith "_embedding" = false →
      kv ∈ (pyGetD (apiTransformNode (transformNode gid r)) "attributes"
        (.vdict [])).asDict) := by
  have hattr : (pyGetD (apiTransformNode (transformNode gid r)) "attributes"
      (.vdict [])).asDict =
      (nodeAttributes r.props).filter (fun kv => !(kv.1.endsWith "_embedding")) := rfl
  refine ⟨hattr, ?_, ?_⟩
  · intro kv hkv
    rw [hattr] at hkv
    have h := List.mem_filter.mp hkv
    simpa using h.2
  · intro kv hkv h1 h2
    rw [hattr]
    refine List.mem_filter.mpr ⟨?_, by simp [h2]⟩
    unfold nodeAttributes
    have h1m : kv.1 ∉ standardProps := by simpa using h1
    exact List.mem_filter.mpr ⟨hkv, by simp [h1m, h2]⟩

/-- Witness for `response_attributes_embedding_filtered` on a node with a
scalar attribute and an embedding attribute. -/
theorem response_attributes_embedding_filtered_witness :
    ("age", PyVal.vstr "3") ∈
      ([("age", PyVal.vstr "3"), ("vec_embedding", PyVal.vstr "v"),
        ("name", PyVal.vstr "A")] : PyDict) ∧
    ("age", PyVal.vstr "3") ∈
      (pyGetD (apiTransformNode (transformNode "g"
          ⟨[("age", .vstr "3"), ("vec_embedding", .vstr "v"),
            ("name", .vstr "A")], ["Entity"]⟩)) "attributes"
        (.vdict [])).asDict :=
  ⟨by decide,
   (response_attributes_embedding_filtered "g"
      ⟨[("age", .vstr "3"), ("vec_embedding", .vstr "v"),
        ("name", .vstr "A")], ["Entity"]⟩).2.2
     ("age", .vstr "3") (by decide) (by decide) (by decide)⟩

theorem updateTypesList_none (name : String) (d : Option String)
    (f : Option (List PyDict)) (now : String) :
    ∀ ts : List EntityTypeRec, (∀ t ∈ ts, t.name ≠ name) →
      updateTypesList name d f now ts = none
  | [], _ => rfl
  | t :: ts, h => by
      rw [updateTypesList, if_neg (h t (List.mem_cons_self _ _)),
        updateTypesList_none name d f now ts
          (fun u hu => h u (List.mem_cons_of_mem _ hu))]
      rfl

theorem updateTypesList_found (name : String) (d : Option String)
    (f : Option (List PyDict)) (now : String) :
    ∀ (pre : List EntityTypeRec) (t : EntityTypeRec) (post : List EntityTypeRec),
      t.name = name → (∀ u ∈ pre, u.name ≠ name) →
      updateTypesList name d f now (pre ++ t :: post) =
        some ((pre ++ { t with description := d.getD t.description,
                               fields := f.getD t.fields,
                               modified_at := some now,
                               source := "api" } :: post),
              { t with description := d.getD t.description,
                       fields := f.getD t.fields,
                       modified_at := some now,
                       source := "api" })
  | [], t, post, ht, _ => by
      rw [List.nil_append, updateTypesList, if_pos ht]
      rfl
  | u :: pre, t, post, ht, hpre => by
      rw [List.cons_append, updateTypesList,
        if_neg (hpre u (List.mem_cons_self _ _)),
        updateTypesList_found name d f now pre t post ht
          (fun v hv => hpre v (List.mem_cons_of_mem _ hv))]
      rfl

/-- **C9.** `EntityTypeService.update`: if no stored type has the given
name, the call returns not-found and leaves the collection unchanged;
otherwise exactly the first type with that name changes — only the supplied
`description`/`fields` are overwritten, `modified_at` is freshly stamped and
`source` (provenance) is set to `"api"` — while its `name` and `created_at`
and every other stored type are unchanged. -/
theorem entity_type_update_frame (store : List EntityTypeRec) (name : String)
    (d : Option String) (f : Option (List PyDict)) (now : String) :
    ((∀ t ∈ store, t.name ≠ name) →
      entityTypeUpdate store name d f now = (store, none)) ∧
    (∀ (pre : List EntityTypeRec) (t : EntityTypeRec) (post : List EntityTypeRec),
      store = pre ++ t :: post → t.name = name → (∀ u ∈ pre, u.name ≠ name) →
      entityTypeUpdate store name d f now =
        (pre ++ { t with description := d.getD t.description,
                         fields := f.getD t.fields,
                         modified_at := some now,
                         source := "api" } :: post,
         some { t with description := d.getD t.description,
                       fields := f.getD t.fields,
                       modified_at := some now,
                       source := "api" })) := by
  constructor
  · intro h
    rw [entityTypeUpdate, updateTypesList_none name d f now store h]
  · intro pre t post hstore ht hpre
    subst hstore
    rw [entityTypeUpdate, updateTypesList_found name d f now pre t post ht hpre]

/-- Witness for `entity_type_update_frame`: a two-type store where the
second type is updated and where a lookup of an absent name changes
nothing. -/
theorem entity_type_update_frame_witness :
    entityTypeUpdate
        [⟨"Person", "a person", [], "config", "t0", none⟩,
         ⟨"Place", "a place", [], "config", "t0", none⟩]
        "Absent" (some "x") none "t1" =
      ([⟨"Person", "a person", [], "config", "t0", none⟩,
        ⟨"Place", "a place", [], "config", "t0", none⟩], none) ∧
    entityTypeUpdate
        [⟨"Person", "a person", [], "config", "t0", none⟩,
         ⟨"Place", "a place", [], "config", "t0", none⟩]
        "Place" (some "somewhere") none "t1" =
      ([⟨"Person", "a person", [], "config", "t0", none⟩,
        ⟨"Place", "somewhere", [], "api", "t0", some "t1"⟩],
       some ⟨"Place", "somewhere", [], "api", "t0", some "t1"⟩) :=
  ⟨(entity_type_update_frame
      [⟨"Person", "a person", [], "config", "t0", none⟩,
       ⟨"Place", "a place", [], "config", "t0", none⟩]
      "Absent" (some "x") none "t1").1 (by decide),
   (entity_type_update_frame
      [⟨"Person", "a person", [], "config", "t0", none⟩,
       ⟨"Place", "a place", [], "config", "t0", none⟩]
      "Place" (some "somewhere") none "t1").2
     [⟨"Person", "a person", [], "config", "t0", none⟩]
     ⟨"Place", "a place", [], "config", "t0", none⟩ [] rfl rfl (by decide)⟩

theorem validateLoop_none (h now : String) :
    ∀ ks : List ApiKeyEntry, (∀ k ∈ ks, k.key_hash ≠ h) →
      validateLoop h now ks = none
  | [], _ => rfl
  | k :: ks, hk => by
      rw [validateLoop, if_neg (hk k (List.mem_cons_self _ _)),
        validateLoop_none h now ks (fun u hu => hk u (List.mem_cons_of_mem _ hu))]
      rfl

theorem validateLoop_found (h now : String) :
    ∀ (pre : List ApiKeyEntry) (e : ApiKeyEntry) (post : List ApiKeyEntry),
      e.key_hash = h → (∀ u ∈ pre, u.key_hash ≠ h) →
      validateLoop h now (pre ++ e :: post) =
        some (pre ++ { e with last_used := some now } :: post)
  | [], e, post, he, _ => by
      rw [List.nil_append, validateLoop, if_pos he]
      rfl
  | u :: pre, e, post, he, hpre => by
      rw [List.cons_append, validateLoop, if_neg (hpre u (List.mem_cons_self _ _)),
        validateLoop_found h now pre e post he
          (fun v hv => hpre v (List.mem_cons_of_mem _ hv))]
      rfl

/-- If no stored hash matches, `validate_api_key` returns `False` and leaves
the store untouched (whether or not the prefix guard fires). -/
theorem validateApiKey_no_match (hash : String → String)
    (store : List ApiKeyEntry) (key now : String)
    (hnone : ∀ e ∈ store, e.key_hash ≠ hash key) :
    validateApiKey hash store key now = (false, store) := by
  unfold validateApiKey
  rw [validateLoop_none (hash key) now store hnone]
  split <;> rfl

/-- If the key passes the prefix guard and its hash matches the first entry
at a split, `validate_api_key` returns `True` and stamps that entry. -/
theorem validateApiKey_match (hash : String → String)
    (store : List ApiKeyEntry) (key now : String)
    (pre : List ApiKeyEntry) (e : ApiKeyEntry) (post : List ApiKeyEntry)
    (hstore : store = pre ++ e :: post) (he : e.key_hash = hash key)
    (hpre : ∀ u ∈ pre, u.key_hash ≠ hash key)
    (hne : key ≠ "") (hsw : pyStartsWith key "gk_" = true) :
    validateApiKey hash store key now =
      (true, pre ++ { e with last_used := some now } :: post) := by
  subst hstore
  unfold validateApiKey
  rw [validateLoop_found (hash key) now pre e post he hpre]
  simp [hne, hsw]

theorem exists_first_split {α : Type} (p : α → Prop) [DecidablePred p] :
    ∀ l : List α, (∃ x ∈ l, p x) →
      ∃ pre x post, l = pre ++ x :: post ∧ p x ∧ ∀ u ∈ pre, ¬p u
  | [], h => by simp at h
  | x :: xs, h => by
      by_cases hx : p x
      · exact ⟨[], x, xs, rfl, hx, by simp⟩
      · have hxs : ∃ y ∈ xs, p y := by
          rcases h with ⟨y, hy, hpy⟩
          rcases List.mem_cons.mp hy with rfl | hy
          · exact absurd hpy hx
          · exact ⟨y, hy, hpy⟩
        obtain ⟨pre, y, post, rfl, hpy, hpre⟩ := exists_first_split p xs hxs
        refine ⟨x :: pre, y, post, rfl, hpy, ?_⟩
        intro u hu
        rcases List.mem_cons.mp hu with rfl | hu
        · exact hx
        · exact hpre u hu

/-- A key generated by `generate_api_key` starts with the documented
prefix. -/
theorem pyStartsWith_generated (token : String) :
    pyStartsWith (generateApiKey token) "gk_" = true := by
  have hd : "gk_".data = ['g', 'k', '_'] := by decide
  simp [pyStartsWith, generateApiKey, hd, List.isPrefixOf_cons₂]

/-- A generated key is nonempty. -/
theorem generated_ne_empty (token : String) : generateApiKey token ≠ "" := by
  intro h
  have := congrArg String.data h
  simp [generateApiKey] at this

/-- **C10.** `validate_api_key` returns `True` exactly when the hash of the
given secret matches a stored hash (for collision-free hashing and a store
whose hashes come from generated, prefixed keys), and on success stamps that
key's `last_used`; moreover for a secret produced by `create_api_key` it
returns `True`, for that secret with any character appended it returns
`False`, and after `delete_api_key` removes the key it returns `False`. -/
theorem api_key_validate_spec (hash : String → String)
    (hinj : Function.Injective hash) (store : List ApiKeyEntry)
    (key now : String)
    (hwf : ∀ e ∈ store, ∃ k, pyStartsWith k "gk_" = true ∧ e.key_hash = hash k) :
    ((validateApiKey hash store key now).1 = true ↔
      ∃ e ∈ store, e.key_hash = hash key) ∧
    (∀ (pre : List ApiKeyEntry) (e : ApiKeyEntry) (post : List ApiKeyEntry),
      store = pre ++ e :: post → e.key_hash = hash key →
      (∀ u ∈ pre, u.key_hash ≠ hash key) →
      validateApiKey hash store key now =
        (true, pre ++ { e with last_used := some now } :: post)) ∧
    ((validateApiKey hash store key now).1 = false →
      (validateApiKey hash store key now).2 = store) ∧
    (∀ (nm token now1 now2 : String) (c : Char),
      (validateApiKey hash (createApiKey hash [] nm token now1).1
          (createApiKey hash [] nm token now1).2.key now2).1 = true ∧
      (validateApiKey hash (createApiKey hash [] nm token now1).1
          (String.push (createApiKey hash [] nm token now1).2.key c) now2).1 =
        false ∧
      (validateApiKey hash
          (deleteApiKey (createApiKey hash [] nm token now1).1
            (createApiKey hash [] nm token now1).2.key_pfx).2
          (createApiKey hash [] nm token now1).2.key now2).1 = false) := by
  have hguard : ∀ k : String, (∃ e ∈ store, e.key_hash = hash k) →
      k ≠ "" ∧ pyStartsWith k "gk_" = true := by
    intro k hk
    obtain ⟨e, he, hh⟩ := hk
    obtain ⟨k0, hk0sw, hk0⟩ := hwf e he
    have : k0 = k := hinj (hk0.symm.trans hh)
    subst this
    refine ⟨?_, hk0sw⟩
    intro hempty
    rw [hempty] at hk0sw
    exact absurd hk0sw (by decide)
  have hmatch : ∀ (pre : List ApiKeyEntry) (e : ApiKeyEntry)
      (post : List ApiKeyEntry),
      store = pre ++ e :: post → e.key_hash = hash key →
      (∀ u ∈ pre, u.key_hash ≠ hash key) →
      validateApiKey hash store key now =
        (true, pre ++ { e with last_used := some now } :: post) := by
    intro pre e post hstore he hpre
    have hmem : e ∈ store := by rw [hstore]; simp
    obtain ⟨hne, hsw⟩ := hguard key ⟨e, hmem, he⟩
    exact validateApiKey_match hash store key now pre e post hstore he hpre hne hsw
  have hiff : (validateApiKey hash store key now).1 = true ↔
      ∃ e ∈ store, e.key_hash = hash key := by
    constructor
    · intro hv
      by_contra hex
      push_neg at hex
      rw [validateApiKey_no_match hash store key now hex] at hv
      simp at hv
    · intro hex
      obtain ⟨pre, e, post, hstore, he, hpre⟩ :=
        exists_first_split (fun e => e.key_hash = hash key) store hex
      rw [hmatch pre e post hstore he hpre]
  refine ⟨hiff, hmatch, ?_, ?_⟩
  · intro hf
    by_cases hex : ∃ e ∈ store, e.key_hash = hash key
    · exact absurd (hiff.mpr hex) (by simp [hf])
    · push_neg at hex
      rw [validateApiKey_no_match hash store key now hex]
  · intro nm token now1 now2 c
    refine ⟨?_, ?_, ?_⟩
    · have h := validateApiKey_match hash
        (createApiKey hash [] nm token now1).1
        (createApiKey hash [] nm token now1).2.key now2
        []
        { name := nm, key_hash := hash (generateApiKey token),
          key_pfx := pyTake (generateApiKey token) 12,
          full_key := generateApiKey token, created_at := now1,
          last_used := none }
        [] rfl rfl (by simp)
        (generated_ne_empty token) (pyStartsWith_generated token)
      rw [h]
    · have hne : ∀ e ∈ (createApiKey hash [] nm token now1).1,
          e.key_hash ≠ hash (String.push (generateApiKey token) c) := by
        intro e he
        simp only [createApiKey, List.nil_append, List.mem_singleton] at he
        subst he
        intro hh
        have hkey := hinj hh
        have hlen := congrArg (fun s : String => s.data.length) hkey
        simp [String.push] at hlen
      show (validateApiKey hash (createApiKey hash [] nm token now1).1
        ((generateApiKey token).push c) now2).1 = false
      rw [validateApiKey_no_match hash _ _ now2 hne]
    · have hdel : (deleteApiKey (createApiKey hash [] nm token now1).1
          (createApiKey hash [] nm token now1).2.key_pfx).2 = [] := by
        simp [deleteApiKey, createApiKey]
      rw [hdel, validateApiKey_no_match hash [] _ now2 (by simp)]

/-- Witness for `api_key_validate_spec` with the identity as (injective)
hash on the empty store; the lifecycle part is exercised at a concrete
generated key. -/
theorem api_key_validate_spec_witness :
    (∀ e ∈ ([] : List ApiKeyEntry),
      ∃ k, pyStartsWith k "gk_" = true ∧ e.key_hash = id k) ∧
    (validateApiKey id (createApiKey id [] "ci-bot" "tok" "t0").1
        (createApiKey id [] "ci-bot" "tok" "t0").2.key "t1").1 = true ∧
    (validateApiKey id (createApiKey id [] "ci-bot" "tok" "t0").1
        (String.push (createApiKey id [] "ci-bot" "tok" "t0").2.key 'x')
        "t1").1 = false :=
  ⟨by simp,
   ((api_key_validate_spec id (fun _ _ h => h) [] "k" "t0"
      (by simp)).2.2.2 "ci-bot" "tok" "t0" "t1" 'x').1,
   ((api_key_validate_spec id (fun _ _ h => h) [] "k" "t0"
      (by simp)).2.2.2 "ci-bot" "tok" "t0" "t1" 'x').2.1⟩

end GraphitiUI
